import Mathlib

/-!
# Verification of the TEPS classifier (src/algo/teps.py)

A shallow embedding of the `TEPS` class (Tool Engagement based Phase
Segmentation).  Torque values, feed rates, weights and learning rates are
modelled by rationals; the mutable object state becomes an explicit `TEPS`
structure threaded through the methods.  Python operations that can raise an
exception (division by a zero weight sum, statistics of an empty window being
`None` and then used in arithmetic) are modelled with `Option`: a `none`
result stands for a raised exception.

The `deque(maxlen=hist_size)` rolling buffer is a list that drops its oldest
entries once past capacity.  Field order and names follow the source.
-/

/-- A cluster dictionary: `{'min', 'max', 'mean', 'count', 'sum', 'ready'}`
as built in `TEPS.__init__`. -/
structure Cluster where
  min : ℚ
  max : ℚ
  mean : ℚ
  count : ℕ
  sum : ℚ
  ready : Bool
  deriving Repr, DecidableEq

/-- The `(min, max, mean)` view of a cluster: the three fields read by
`compute_cluster_distance` and produced by `get_drill_or_clipped_cluster`
(the latter returns a plain `{'mean','max','min'}` dict in the source). -/
structure ClusterView where
  min : ℚ
  max : ℚ
  mean : ℚ
  deriving Repr, DecidableEq

/-- Forget the bookkeeping fields of a cluster. -/
def Cluster.view (c : Cluster) : ClusterView :=
  ⟨c.min, c.max, c.mean⟩

/-- The mutable state of a `TEPS` instance: every attribute set by
`__init__`. -/
structure TEPS where
  air_cluster : Cluster
  drill_cluster : Cluster
  a_init : ℚ
  a_min : ℚ
  a : ℚ
  decay_factor : ℚ
  start_index : ℕ
  ignore_start : ℕ
  init_mode : String
  min_distance_threshold : ℚ
  hist_size : ℕ
  x_hist : List ℚ
  weights : ℚ × ℚ × ℚ
  factor : ℚ
  deriving Repr, DecidableEq

/-- `TEPS.__init__`: note that `start_mean_air[0]` seeds `min`,
`start_mean_air[1]` seeds `max` and `start_mean_air[2]` seeds `mean`
(likewise for the drill cluster), and that no argument is validated. -/
def TEPS.init (start_mean_air start_mean_drill : ℚ × ℚ × ℚ)
    (ignore_start : ℕ) (init_mode : String) (min_distance_threshold : ℚ)
    (hist_size : ℕ) (weights : ℚ × ℚ × ℚ) (factor : ℚ)
    (a_init a_min decay_factor : ℚ) : TEPS where
  air_cluster :=
    { min := start_mean_air.1, max := start_mean_air.2.1,
      mean := start_mean_air.2.2, count := 0, sum := 0, ready := false }
  drill_cluster :=
    { min := start_mean_drill.1, max := start_mean_drill.2.1,
      mean := start_mean_drill.2.2, count := 0, sum := 0, ready := false }
  a_init := a_init
  a_min := a_min
  a := a_init
  decay_factor := decay_factor
  start_index := 0
  ignore_start := ignore_start
  init_mode := init_mode
  min_distance_threshold := min_distance_threshold
  hist_size := hist_size
  x_hist := []
  weights := weights
  factor := factor

/-- Append to a `deque(maxlen := maxlen)`: the oldest entries are evicted
once the length passes the capacity. -/
def dequeAppend (l : List ℚ) (x : ℚ) (maxlen : ℕ) : List ℚ :=
  let l' := l ++ [x]
  if maxlen < l'.length then l'.drop (l'.length - maxlen) else l'

/-- `TEPS.compute_rolling_stats`: `(min, max, mean)` of the rolling buffer,
or `(None, None, None)` (here `none`) when the buffer is empty. -/
def TEPS.compute_rolling_stats (s : TEPS) : Option (ℚ × ℚ × ℚ) :=
  match s.x_hist with
  | [] => none
  | x :: xs =>
    some (xs.foldl Min.min x, xs.foldl Max.max x,
      (x :: xs).sum / ((x :: xs).length : ℚ))

/-- `TEPS.compute_cluster_distance`: weighted distance from a cluster to the
window statistics.  A zero weight sum raises `ZeroDivisionError` in Python,
modelled as `none`. -/
def TEPS.compute_cluster_distance (w : ℚ × ℚ × ℚ) (cluster : ClusterView)
    (x_min x_max x_mean : ℚ) : Option ℚ :=
  let w1 := w.1
  let w2 := w.2.1
  let w3 := w.2.2
  if w1 + w2 + w3 = 0 then none
  else
    some ((w1 * |x_mean - cluster.mean| + w2 * |x_min - cluster.min|
      + w3 * |x_max - cluster.max|) / (w1 + w2 + w3))

/-- `TEPS.get_drill_or_clipped_cluster`: return either the tracked drill
cluster or the air cluster shifted by `factor * 2 * |air.min - air.max|`.
The stored clusters are not modified (the function is read-only on `s`). -/
def TEPS.get_drill_or_clipped_cluster (s : TEPS) : ClusterView :=
  let shift := 2 * |s.air_cluster.min - s.air_cluster.max|
  let clipped_mean := s.air_cluster.mean + s.factor * shift
  let clipped_max := s.air_cluster.max + s.factor * shift
  let clipped_min := s.air_cluster.min + s.factor * shift
  if |clipped_min - s.air_cluster.min| < |clipped_min - s.drill_cluster.min|
      ∧ |clipped_max - s.air_cluster.max| < |clipped_max - s.drill_cluster.max|
  then ⟨clipped_min, clipped_max, clipped_mean⟩
  else s.drill_cluster.view

/-- `TEPS.predict`: `0` while the window is not full; otherwise compare the
weighted distances to the air cluster and to the (possibly clipped) drill
cluster, with the `min_distance` closeness override returning `0`. -/
def TEPS.predict (s : TEPS) : Option ℕ :=
  if s.x_hist.length < s.hist_size then some 0
  else
    match s.compute_rolling_stats with
    | none => none
    | some (x_min, x_max, x_mean) =>
      match TEPS.compute_cluster_distance s.weights s.air_cluster.view x_min x_max x_mean,
        TEPS.compute_cluster_distance s.weights s.get_drill_or_clipped_cluster x_min x_max x_mean with
      | some air_dist, some drill_dist =>
        if s.init_mode = "min_distance"
            ∧ |s.drill_cluster.mean - s.air_cluster.mean| < s.min_distance_threshold
        then some 0
        else some (if air_dist < drill_dist then 0 else 1)
      | _, _ => none

/-- `TEPS.update`: no effect while the window is not full; the seeding branch
under `min_distance` mode; otherwise move the nearer cluster (air on ties)
toward the window statistics with learning rate `a`. -/
def TEPS.update (s : TEPS) : Option TEPS :=
  if s.x_hist.length < s.hist_size then some s
  else
    match s.compute_rolling_stats with
    | none => none
    | some (x_min, x_max, x_mean) =>
      if s.init_mode = "min_distance" ∧ s.air_cluster.ready = false then
        some { s with
          air_cluster := { s.air_cluster with
            mean := x_mean, min := x_min, max := x_max, ready := true },
          drill_cluster := { s.drill_cluster with
            mean := x_mean + s.factor * |s.min_distance_threshold / 2|,
            min := x_min + s.factor * |s.min_distance_threshold / 2|,
            max := x_max + s.factor * |s.min_distance_threshold / 2| } }
      else
        match TEPS.compute_cluster_distance s.weights s.air_cluster.view x_min x_max x_mean,
          TEPS.compute_cluster_distance s.weights s.drill_cluster.view x_min x_max x_mean with
        | some air_dist, some drill_dist =>
          if air_dist ≤ drill_dist then
            some { s with air_cluster := { s.air_cluster with
              mean := (1 - s.a) * s.air_cluster.mean + s.a * x_mean,
              min := (1 - s.a) * s.air_cluster.min + s.a * x_min,
              max := (1 - s.a) * s.air_cluster.max + s.a * x_max } }
          else
            some { s with drill_cluster := { s.drill_cluster with
              mean := (1 - s.a) * s.drill_cluster.mean + s.a * x_mean,
              min := (1 - s.a) * s.drill_cluster.min + s.a * x_min,
              max := (1 - s.a) * s.drill_cluster.max + s.a * x_max } }
        | _, _ => none

/-- `TEPS.update_step_size`: multiplicative decay of `a`, floored at
`a_min`. -/
def TEPS.update_step_size (s : TEPS) : TEPS :=
  if s.a_min < s.a then
    let a' := s.a * s.decay_factor
    { s with a := if a' < s.a_min then s.a_min else a' }
  else s

/-- `TEPS.process_sample`: warm-up counting, then window push, cluster
update, learning-rate decay and prediction.  Returns the prediction, the
current cluster means, and the successor state. -/
def TEPS.process_sample (s : TEPS) (x : ℚ) : Option (ℕ × (ℚ × ℚ) × TEPS) :=
  if s.start_index < s.ignore_start then
    let s' := { s with start_index := s.start_index + 1 }
    match s'.predict with
    | none => none
    | some p => some (p, (s'.air_cluster.mean, s'.drill_cluster.mean), s')
  else
    let s1 := { s with x_hist := dequeAppend s.x_hist x s.hist_size }
    match s1.update with
    | none => none
    | some s2 =>
      let s3 := s2.update_step_size
      match s3.predict with
      | none => none
      | some p => some (p, (s3.air_cluster.mean, s3.drill_cluster.mean), s3)

/-- `TEPS.get_phase_label`: the nested-conditional phase state machine.
`not last_state` in Python is `last_state == 0` on integers; an integer
`last_state` outside `[0,5]` falls through every branch and the function
returns `None` (here `none`). -/
def TEPS.get_phase_label (last_state treshold : ℤ) (feed : ℚ) : Option ℤ :=
  if 1000 < |feed| then some 0
  else if last_state = 0 then
    if treshold = 1 ∧ feed < 0 then some 2
    else if treshold = 1 then some 4
    else if 0 ≤ feed then some 5
    else some 1
  else if last_state = 1 then
    if treshold < 1 ∧ feed < 0 then some 1
    else if treshold < 1 ∧ 0 ≤ feed then some 5
    else some 2
  else if last_state = 2 ∨ last_state = 3 then
    if treshold = 1 ∧ feed < 0 then some 2
    else if treshold < 1 ∧ feed < 0 then some 3
    else if 0 ≤ feed ∧ treshold = 1 then some 4
    else some 5
  else if last_state = 4 ∨ last_state = 5 then
    if 0 ≤ feed ∧ treshold < 1 then some 5
    else if 0 ≤ feed ∧ treshold = 1 then some 4
    else some 1
  else none

/-- Run `process_sample` over a list of inputs, collecting the predictions;
`none` if any call raises. -/
def TEPS.run_predictions : TEPS → List ℚ → Option (List ℕ)
  | _, [] => some []
  | s, x :: xs =>
    match s.process_sample x with
    | none => none
    | some (p, _, s') =>
      match TEPS.run_predictions s' xs with
      | none => none
      | some ps => some (p :: ps)

/-- Run `process_sample` over a list of inputs, collecting the
`(prediction, (air_mean, drill_mean))` outputs and the final state. -/
def TEPS.run_outputs : TEPS → List ℚ → Option (List (ℕ × (ℚ × ℚ)) × TEPS)
  | s, [] => some ([], s)
  | s, x :: xs =>
    match s.process_sample x with
    | none => none
    | some (p, m, s') =>
      match TEPS.run_outputs s' xs with
      | none => none
      | some (ps, sf) => some ((p, m) :: ps, sf)

/-- The transition table of spec section 4.4, written from the spec's words
(the second definition of the refinement claim C1; the fall-through value
is never consulted under the claim's domain hypotheses). -/
def spec_phase_table (last_phase engaged : ℤ) (feed : ℚ) : ℤ :=
  if 1000 < |feed| then 0
  else if last_phase = 0 then
    if engaged = 1 ∧ feed < 0 then 2
    else if engaged = 1 ∧ 0 ≤ feed then 4
    else if engaged = 0 ∧ 0 ≤ feed then 5
    else 1
  else if last_phase = 1 then
    if engaged = 0 ∧ feed < 0 then 1
    else if engaged = 0 ∧ 0 ≤ feed then 5
    else 2
  else if last_phase = 2 ∨ last_phase = 3 then
    if engaged = 1 ∧ feed < 0 then 2
    else if engaged = 0 ∧ feed < 0 then 3
    else if engaged = 1 ∧ 0 ≤ feed then 4
    else 5
  else if last_phase = 4 ∨ last_phase = 5 then
    if engaged = 0 ∧ 0 ≤ feed then 5
    else if engaged = 1 ∧ 0 ≤ feed then 4
    else 1
  else 0

/-- The spec section 8 configuration: `hist_size=3`, `ignore_start=0`,
`init_mode=fixed`, `start_mean_air=(0,0,0)`, `start_mean_drill`
`=(-1.5,-1.5,-1.5)`, remaining parameters at the source defaults. -/
def c3_teps : TEPS :=
  TEPS.init (0, 0, 0) (-3/2, -3/2, -3/2) 0 "fixed" (1/10) 3 (1, 1, 1) 1
    (1/100) (1/1000) (9995/10000)

/-- A small state with a full one-sample window, used to instantiate the
predictor and tracker theorems at concrete inputs. -/
def c2_state : TEPS :=
  { TEPS.init (0, 0, 0) (-3/2, -3/2, -3/2) 0 "fixed" (1/10) 1 (1, 1, 1) 1
      (1/100) (1/1000) (1/2) with x_hist := [0] }

/-- A configuration with all-zero distance weights and a full window:
`__init__` accepts it unchecked. -/
def c5_zero_w : TEPS :=
  { TEPS.init (0, 0, 0) (-3/2, -3/2, -3/2) 0 "fixed" (1/10) 1 (0, 0, 0) 1
      (1/100) (1/1000) (1/2) with x_hist := [1] }

/-- A configuration with the unrecognized `init_mode` value `"banana"`:
`__init__` accepts it unchecked. -/
def c5_unknown_mode : TEPS :=
  TEPS.init (0, 0, 0) (-3/2, -3/2, -3/2) 0 "banana" (1/10) 1 (1, 1, 1) 1
    (1/100) (1/1000) (1/2)

/-- The same configuration as `c5_unknown_mode` with `init_mode="fixed"`. -/
def c5_fixed_mode : TEPS :=
  TEPS.init (0, 0, 0) (-3/2, -3/2, -3/2) 0 "fixed" (1/10) 1 (1, 1, 1) 1
    (1/100) (1/1000) (1/2)

/-- A `min_distance` state with a full one-sample window and the air
cluster not yet ready, used to instantiate the seeding theorem. -/
def c7_state : TEPS :=
  { TEPS.init (0, 0, 0) (-3/2, -3/2, -3/2) 0 "min_distance" (1/10) 1
      (1, 1, 1) 1 (1/100) (1/1000) (1/2) with x_hist := [2] }

/-- A freshly constructed state with one warm-up call pending, used to
instantiate the learning-rate theorem. -/
def c9_state : TEPS :=
  TEPS.init (0, 0, 0) (-3/2, -3/2, -3/2) 1 "fixed" (1/10) 3 (1, 1, 1) 1
    (1/100) (1/1000) (1/2)

/-- The successor of `c9_state` after one warm-up call. -/
def c9_state_after : TEPS := { c9_state with start_index := 1 }

set_option maxHeartbeats 4000000 in
/-- C1: for `last_phase ∈ [0,5]`, `engaged ∈ {0,1}` and any rational feed,
`get_phase_label` agrees with the transition table of spec section 4.4,
including the `|feed| > 1000` override to phase 0. -/
theorem C1_phase_label_matches_spec_table (lp eng : ℤ) (feed : ℚ)
    (h0 : 0 ≤ lp) (h5 : lp ≤ 5) (heng : eng = 0 ∨ eng = 1) :
    TEPS.get_phase_label lp eng feed = some (spec_phase_table lp eng feed) := by
  rcases heng with rfl | rfl <;> interval_cases lp <;>
    by_cases hb : 1000 < |feed| <;>
    rcases lt_or_le feed 0 with hf | hf <;>
    first
      | simp [TEPS.get_phase_label, spec_phase_table, hb, hf, not_le.mpr hf]
      | simp [TEPS.get_phase_label, spec_phase_table, hb, hf, not_lt.mpr hf]

/-- C2: `predict` returns 0 on an underfull window; on a full window it
returns 0 under the `min_distance` closeness override, and otherwise votes
1 exactly when the drill distance is at most the air distance. -/
theorem C2_predict_decision (s : TEPS) :
    (s.x_hist.length < s.hist_size → s.predict = some 0) ∧
    (∀ mn mx me air_dist drill_dist : ℚ,
      ¬ s.x_hist.length < s.hist_size →
      s.compute_rolling_stats = some (mn, mx, me) →
      TEPS.compute_cluster_distance s.weights s.air_cluster.view mn mx me
        = some air_dist →
      TEPS.compute_cluster_distance s.weights s.get_drill_or_clipped_cluster
        mn mx me = some drill_dist →
      s.predict = some (
        if s.init_mode = "min_distance"
            ∧ |s.drill_cluster.mean - s.air_cluster.mean|
              < s.min_distance_threshold
        then 0
        else if drill_dist ≤ air_dist then 1 else 0)) := by
  constructor
  · intro h
    simp [TEPS.predict, h]
  · intro mn mx me ad dd h hstats hair hdrill
    simp only [TEPS.predict, if_neg h, hstats, hair, hdrill]
    by_cases hc : s.init_mode = "min_distance"
        ∧ |s.drill_cluster.mean - s.air_cluster.mean| < s.min_distance_threshold
    · simp [hc]
    · simp only [if_neg hc]
      rcases lt_or_le ad dd with h2 | h2
      · simp [h2, not_le.mpr h2]
      · simp [not_lt.mpr h2, h2]

/-- C4: the prediction-time drill cluster is the clipped air cluster
exactly when the clipped bounds are strictly closer to the air bounds than
the tracked drill bounds are; otherwise it is the tracked drill cluster,
and the stored clusters are never modified (`get_drill_or_clipped_cluster`
is read-only on the state). -/
theorem C4_drill_or_clipped_selection (s : TEPS) :
    (|s.air_cluster.min + s.factor * (2 * |s.air_cluster.min - s.air_cluster.max|)
          - s.air_cluster.min|
        < |s.air_cluster.min + s.factor * (2 * |s.air_cluster.min - s.air_cluster.max|)
          - s.drill_cluster.min|
      ∧ |s.air_cluster.max + s.factor * (2 * |s.air_cluster.min - s.air_cluster.max|)
          - s.air_cluster.max|
        < |s.air_cluster.max + s.factor * (2 * |s.air_cluster.min - s.air_cluster.max|)
          - s.drill_cluster.max| →
      s.get_drill_or_clipped_cluster =
        ⟨s.air_cluster.min + s.factor * (2 * |s.air_cluster.min - s.air_cluster.max|),
         s.air_cluster.max + s.factor * (2 * |s.air_cluster.min - s.air_cluster.max|),
         s.air_cluster.mean + s.factor * (2 * |s.air_cluster.min - s.air_cluster.max|)⟩) ∧
    (¬ (|s.air_cluster.min + s.factor * (2 * |s.air_cluster.min - s.air_cluster.max|)
          - s.air_cluster.min|
        < |s.air_cluster.min + s.factor * (2 * |s.air_cluster.min - s.air_cluster.max|)
          - s.drill_cluster.min|
      ∧ |s.air_cluster.max + s.factor * (2 * |s.air_cluster.min - s.air_cluster.max|)
          - s.air_cluster.max|
        < |s.air_cluster.max + s.factor * (2 * |s.air_cluster.min - s.air_cluster.max|)
          - s.drill_cluster.max|) →
      s.get_drill_or_clipped_cluster = s.drill_cluster.view) := by
  constructor <;> intro h <;> simp only [TEPS.get_drill_or_clipped_cluster]
  · rw [if_pos h]
  · rw [if_neg h]

/-- C6: on a full window outside the `min_distance` seeding step, `update`
replaces exactly one cluster — the air cluster when its distance is smaller
or equal, the drill cluster otherwise — by the exponential rule on mean,
min and max, leaving every field of the other cluster unchanged. -/
theorem C6_update_exactly_one_cluster (s : TEPS)
    (mn mx me air_dist drill_dist : ℚ)
    (hfull : ¬ s.x_hist.length < s.hist_size)
    (hstats : s.compute_rolling_stats = some (mn, mx, me))
    (hseed : ¬ (s.init_mode = "min_distance" ∧ s.air_cluster.ready = false))
    (hair : TEPS.compute_cluster_distance s.weights s.air_cluster.view mn mx me
      = some air_dist)
    (hdrill : TEPS.compute_cluster_distance s.weights s.drill_cluster.view mn mx me
      = some drill_dist) :
    s.update = some (
      if air_dist ≤ drill_dist then
        { s with air_cluster := { s.air_cluster with
            mean := (1 - s.a) * s.air_cluster.mean + s.a * me,
            min := (1 - s.a) * s.air_cluster.min + s.a * mn,
            max := (1 - s.a) * s.air_cluster.max + s.a * mx } }
      else
        { s with drill_cluster := { s.drill_cluster with
            mean := (1 - s.a) * s.drill_cluster.mean + s.a * me,
            min := (1 - s.a) * s.drill_cluster.min + s.a * mn,
            max := (1 - s.a) * s.drill_cluster.max + s.a * mx } }) := by
  simp only [TEPS.update, if_neg hfull, hstats, if_neg hseed, hair, hdrill]
  rcases le_or_lt air_dist drill_dist with h2 | h2
  · simp [h2]
  · simp [not_le.mpr h2, h2]

/-- C7: under `min_distance` mode, `update` is the identity while the
window is underfull; at the first full window with the air cluster not
ready it seeds the air cluster from the window statistics, seeds the drill
cluster at the statistics offset by `factor * |min_distance_threshold| / 2`,
marks the air cluster ready, and performs no distance-based update; and
once the ready flag is true no successful `update` ever clears it. -/
theorem C7_min_distance_seeding (s : TEPS) (mn mx me : ℚ) :
    (s.x_hist.length < s.hist_size → s.update = some s) ∧
    (¬ s.x_hist.length < s.hist_size →
      s.compute_rolling_stats = some (mn, mx, me) →
      s.init_mode = "min_distance" → s.air_cluster.ready = false →
      s.update = some { s with
        air_cluster := { s.air_cluster with
          mean := me, min := mn, max := mx, ready := true },
        drill_cluster := { s.drill_cluster with
          mean := me + s.factor * (|s.min_distance_threshold| / 2),
          min := mn + s.factor * (|s.min_distance_threshold| / 2),
          max := mx + s.factor * (|s.min_distance_threshold| / 2) } }) ∧
    (∀ s', s.air_cluster.ready = true → s.update = some s' →
      s'.air_cluster.ready = true) := by
  refine ⟨fun h => by simp [TEPS.update, h], fun h1 h2 h3 h4 => ?_,
    fun s' hr h => ?_⟩
  · simp only [TEPS.update, if_neg h1, h2]
    rw [if_pos ⟨h3, h4⟩]
    have habs : |s.min_distance_threshold / 2| = |s.min_distance_threshold| / 2 := by
      rw [abs_div]; norm_num
    rw [habs]
  · unfold TEPS.update at h
    split at h
    · simp only [Option.some.injEq] at h; subst h; exact hr
    · split at h
      · simp at h
      · split at h
        · simp only [Option.some.injEq] at h; subst h; simp [hr] at *
        · split at h
          · split at h <;> (simp only [Option.some.injEq] at h; subst h; exact hr)
          · simp at h

/-- `update` never changes the learning-rate fields (it only rewrites
cluster parameters). -/
lemma update_preserves_rate_fields {s s' : TEPS} (h : s.update = some s') :
    s'.a = s.a ∧ s'.a_min = s.a_min ∧ s'.decay_factor = s.decay_factor := by
  unfold TEPS.update at h
  split at h
  · simp only [Option.some.injEq] at h; subst h; exact ⟨rfl, rfl, rfl⟩
  · split at h
    · simp at h
    · split at h
      · simp only [Option.some.injEq] at h; subst h; exact ⟨rfl, rfl, rfl⟩
      · split at h
        · split at h <;> (simp only [Option.some.injEq] at h; subst h; exact ⟨rfl, rfl, rfl⟩)
        · simp at h

/-- One decay step: the learning rate never grows and never drops below
`a_min`, and the schedule parameters are untouched. -/
lemma update_step_size_rate_bounds (s : TEPS) (h1 : 0 < s.a_min)
    (h2 : s.a_min ≤ s.a) (h4 : s.decay_factor < 1) :
    s.update_step_size.a ≤ s.a ∧ s.a_min ≤ s.update_step_size.a ∧
      s.update_step_size.a_min = s.a_min ∧
      s.update_step_size.decay_factor = s.decay_factor := by
  unfold TEPS.update_step_size
  split
  · rename_i hlt
    have ha : 0 < s.a := lt_trans h1 hlt
    dsimp only
    split
    · rename_i hsmall
      exact ⟨by linarith, le_refl _, rfl, rfl⟩
    · rename_i hbig
      exact ⟨by nlinarith, by linarith [not_lt.mp hbig], rfl, rfl⟩
  · exact ⟨le_refl _, h2, rfl, rfl⟩

/-- C9: with `0 < a_min ≤ a` and `0 < decay_factor < 1`, every successful
`process_sample` call yields a state whose learning rate is no larger than
before and still at least `a_min`, with the schedule parameters unchanged —
so along any run the rate is non-increasing and floored at `a_min`. -/
theorem C9_learning_rate_monotone (s : TEPS) (x : ℚ) (p : ℕ) (m : ℚ × ℚ)
    (s' : TEPS) (h1 : 0 < s.a_min) (h2 : s.a_min ≤ s.a)
    (h3 : 0 < s.decay_factor) (h4 : s.decay_factor < 1)
    (h : s.process_sample x = some (p, m, s')) :
    s'.a ≤ s.a ∧ s.a_min ≤ s'.a ∧ s'.a_min = s.a_min ∧
      s'.decay_factor = s.decay_factor := by
  simp only [TEPS.process_sample] at h
  split at h
  · split at h
    · simp at h
    · simp only [Option.some.injEq, Prod.mk.injEq] at h
      obtain ⟨-, -, hs⟩ := h
      subst hs
      exact ⟨le_refl _, h2, rfl, rfl⟩
  · split at h
    · simp at h
    · rename_i s2 hupd
      split at h
      · simp at h
      · simp only [Option.some.injEq, Prod.mk.injEq] at h
        obtain ⟨-, -, hs⟩ := h
        subst hs
        obtain ⟨ha, hamin, hdf⟩ := update_preserves_rate_fields hupd
        have hb := update_step_size_rate_bounds s2
          (by rw [hamin]; exact h1) (by rw [hamin, ha]; exact h2)
          (by rw [hdf]; exact h4)
        refine ⟨?_, ?_, ?_, ?_⟩
        · calc s2.update_step_size.a ≤ s2.a := hb.1
            _ = s.a := ha
        · rw [← hamin] at h2 ⊢; exact hb.2.1
        · rw [hb.2.2.1, hamin]
        · rw [hb.2.2.2, hdf]

/-- Warm-up frame lemma: from any state with an empty window, a positive
window capacity and enough warm-up budget, a run only advances the warm-up
counter and emits the unchanged cluster means with prediction 0. -/
lemma run_outputs_warmup (xs : List ℚ) : ∀ s : TEPS, s.x_hist = [] →
    0 < s.hist_size → s.start_index + xs.length ≤ s.ignore_start →
    TEPS.run_outputs s xs =
      some (xs.map (fun _ => (0, (s.air_cluster.mean, s.drill_cluster.mean))),
        { s with start_index := s.start_index + xs.length }) := by
  induction xs with
  | nil =>
    intro s h1 h2 h3
    simp [TEPS.run_outputs]
  | cons x xs ih =>
    intro s h1 h2 h3
    have hw : s.start_index < s.ignore_start := by
      simp only [List.length_cons] at h3; omega
    have hpred : TEPS.predict { s with start_index := s.start_index + 1 } = some 0 := by
      simp [TEPS.predict, h1, h2]
    have hstep : s.process_sample x =
        some (0, (s.air_cluster.mean, s.drill_cluster.mean),
          { s with start_index := s.start_index + 1 }) := by
      simp only [TEPS.process_sample, if_pos hw, hpred]
    have ihs := ih { s with start_index := s.start_index + 1 } h1 h2
      (by simp only [List.length_cons] at h3; simpa using by omega)
    simp only [TEPS.run_outputs, hstep, ihs]
    have harith : s.start_index + 1 + xs.length = s.start_index + (xs.length + 1) := by
      omega
    simp [harith, List.length_cons]

/-- C8: with `ignore_start = n` and a positive window capacity, the first
`n` calls to `process_sample` on a fresh instance leave the clusters, the
window and the learning rate untouched — only the warm-up counter advances —
and every call returns prediction 0 with the initial air and drill means. -/
theorem C8_warmup_frame (air drill : ℚ × ℚ × ℚ) (n : ℕ) (mode : String)
    (th : ℚ) (hs : ℕ) (w : ℚ × ℚ × ℚ) (f ai am df : ℚ) (xs : List ℚ)
    (hhs : 0 < hs) (hlen : xs.length ≤ n) :
    TEPS.run_outputs (TEPS.init air drill n mode th hs w f ai am df) xs =
      some (xs.map (fun _ => (0, (air.2.2, drill.2.2))),
        { TEPS.init air drill n mode th hs w f ai am df with
            start_index := xs.length }) := by
  have h := run_outputs_warmup xs (TEPS.init air drill n mode th hs w f ai am df)
    rfl hhs (by simpa [TEPS.init] using hlen)
  simpa [TEPS.init] using h

set_option maxHeartbeats 2000000 in
/-- C10: with `|feed| ≤ 1000`, any integer `last_phase` outside `[0,5]`
falls through every branch of `get_phase_label` and yields `None`; within
the documented domain the result is a phase label in `[0,5]`. -/
theorem C10_out_of_domain_returns_none (lp eng : ℤ) (feed : ℚ) :
    (|feed| ≤ 1000 → lp < 0 ∨ 5 < lp →
      TEPS.get_phase_label lp eng feed = none) ∧
    (0 ≤ lp → lp ≤ 5 → eng = 0 ∨ eng = 1 →
      ∃ p, TEPS.get_phase_label lp eng feed = some p ∧ 0 ≤ p ∧ p ≤ 5) := by
  constructor
  · intro hfd hlp
    have hb : ¬ 1000 < |feed| := not_lt.mpr hfd
    have h0 : lp ≠ 0 := by omega
    have h1 : lp ≠ 1 := by omega
    have h23 : ¬ (lp = 2 ∨ lp = 3) := by omega
    have h45 : ¬ (lp = 4 ∨ lp = 5) := by omega
    simp [TEPS.get_phase_label, hb, h0, h1, h23, h45]
  · intro h0 h5 heng
    rcases heng with rfl | rfl <;> interval_cases lp <;>
      by_cases hb : 1000 < |feed| <;>
      rcases lt_or_le feed 0 with hf | hf <;>
      first
        | simp [TEPS.get_phase_label, hb, hf, not_le.mpr hf]
        | simp [TEPS.get_phase_label, hb, hf, not_lt.mpr hf]

section ConcreteEvaluation

attribute [local semireducible] Rat.add Rat.sub Rat.mul Rat.inv

set_option maxHeartbeats 4000000 in
/-- C3 (counterexample): on the spec section 8 configuration (`hist_size=3`,
`ignore_start=0`, `init_mode=fixed`, `start_mean_air=(0,0,0)`,
`start_mean_drill=(-1.5,-1.5,-1.5)`) and the input stream `[0,0,0,0,0]`,
the predictions are `[0,0,1,1,1]`: the third prediction is 1, not the
claimed 0 (the clipped drill cluster coincides with the air cluster, the
two distances tie, and a tie predicts engaged). -/
theorem C3_counterexample :
    TEPS.run_predictions c3_teps [0, 0, 0, 0, 0] = some [0, 0, 1, 1, 1] ∧
    ((TEPS.run_predictions c3_teps [0, 0, 0, 0, 0]).bind fun l => l.get? 2)
      ≠ some 0 := by
  decide

set_option maxHeartbeats 4000000 in
/-- C3 (amended): with the spec section 8 configuration, feeding
`[0,0,0,0,0]` yields prediction `engaged=1` for the third, fourth and
fifth samples (and 0 while the window is underfull). -/
theorem C3_amended_predictions :
    TEPS.run_predictions c3_teps [0, 0, 0, 0, 0] = some [0, 0, 1, 1, 1] := by
  decide

set_option maxHeartbeats 4000000 in
/-- C5: construction performs no validation.  An all-zero weight
configuration is accepted and the zero-division failure surfaces only at
the distance computation (`predict` raises, modelled as `none`); an
unrecognized `init_mode` is accepted and behaves exactly like the default
`"fixed"` mode. -/
theorem C5_no_construction_validation :
    c5_zero_w.weights = (0, 0, 0) ∧
    c5_zero_w.predict = none ∧
    TEPS.compute_cluster_distance c5_zero_w.weights c5_zero_w.air_cluster.view
      1 1 1 = none ∧
    TEPS.run_predictions c5_unknown_mode [1, 2, 3]
      = TEPS.run_predictions c5_fixed_mode [1, 2, 3] ∧
    TEPS.run_predictions c5_unknown_mode [1, 2, 3] = some [1, 1, 1] := by
  decide

/-- Witness for C1 at `last_phase=0`, `engaged=1`, `feed=-5`. -/
theorem C1_witness :
    ((0:ℤ) ≤ 0 ∧ (0:ℤ) ≤ 5 ∧ ((1:ℤ) = 0 ∨ (1:ℤ) = 1)) ∧
    TEPS.get_phase_label 0 1 (-5) = some (spec_phase_table 0 1 (-5)) ∧
    spec_phase_table 0 1 (-5) = 2 :=
  ⟨⟨by decide, by decide, Or.inr rfl⟩,
    C1_phase_label_matches_spec_table 0 1 (-5) (by decide) (by decide)
      (Or.inr rfl),
    by decide⟩

/-- Witness for C2 on a full one-sample window where the clipped drill
cluster ties the air cluster: the tie votes engaged. -/
theorem C2_witness : c2_state.predict = some 1 := by
  have h := (C2_predict_decision c2_state).2 0 0 0 0 0
    (by decide) (by decide) (by decide) (by decide)
  rw [h]; decide

/-- Witness for C4: on `c2_state` the clipped bounds (shift 0) are strictly
closer to the air bounds than the tracked drill bounds, so the clipped
cluster is selected. -/
theorem C4_witness : c2_state.get_drill_or_clipped_cluster = ⟨0, 0, 0⟩ := by
  have h := (C4_drill_or_clipped_selection c2_state).1 (by decide)
  rw [h]; decide

/-- Witness for C6: on `c2_state` the air cluster is nearer (distance 0
versus 3/2), is moved by the exponential rule (landing on itself, as the
window statistics equal it), and the drill cluster is untouched. -/
theorem C6_witness : c2_state.update = some c2_state := by
  have h := C6_update_exactly_one_cluster c2_state 0 0 0 0 (3/2)
    (by decide) (by decide) (by decide) (by decide) (by decide)
  rw [h]; decide

/-- Witness for C7: seeding on `c7_state` marks the air cluster ready at
the window statistics 2 and seeds the drill cluster at
`2 + 1 * (|1/10| / 2) = 41/20`. -/
theorem C7_witness :
    (c7_state.update).map
        (fun t => (t.air_cluster.ready, t.air_cluster.mean, t.drill_cluster.mean))
      = some (true, 2, 41/20) := by
  have h := (C7_min_distance_seeding c7_state 2 2 2).2.1
    (by decide) (by decide) rfl rfl
  rw [h]; decide

set_option maxHeartbeats 4000000 in
/-- Witness for C8: two warm-up calls with `ignore_start = 2` discard both
samples, return prediction 0 with the initial means, and only advance the
warm-up counter. -/
theorem C8_witness :
    TEPS.run_outputs (TEPS.init (0, 0, 0) (-3/2, -3/2, -3/2) 2 "fixed" (1/10)
        3 (1, 1, 1) 1 (1/100) (1/1000) (1/2)) [5, 7] =
      some ([(0, (0, -3/2)), (0, (0, -3/2))],
        { TEPS.init (0, 0, 0) (-3/2, -3/2, -3/2) 2 "fixed" (1/10) 3 (1, 1, 1)
            1 (1/100) (1/1000) (1/2) with start_index := 2 }) := by
  have h := C8_warmup_frame (0, 0, 0) (-3/2, -3/2, -3/2) 2 "fixed" (1/10) 3
    (1, 1, 1) 1 (1/100) (1/1000) (1/2) [5, 7] (by decide) (by decide)
  rw [h]; decide

/-- Witness for C9: one (warm-up) call on `c9_state` keeps the learning
rate at `a_init` with the floor and schedule parameters intact. -/
theorem C9_witness :
    c9_state_after.a ≤ c9_state.a ∧ c9_state.a_min ≤ c9_state_after.a ∧
    c9_state_after.a_min = c9_state.a_min ∧
    c9_state_after.decay_factor = c9_state.decay_factor :=
  C9_learning_rate_monotone c9_state 5 0 (0, -3/2) c9_state_after
    (by decide) (by decide) (by decide) (by decide) (by decide)

/-- Witness for C10 at the out-of-domain phases 6 and -1. -/
theorem C10_witness :
    TEPS.get_phase_label 6 0 0 = none ∧
    TEPS.get_phase_label (-1) 1 5 = none :=
  ⟨(C10_out_of_domain_returns_none 6 0 0).1 (by decide) (by decide),
   (C10_out_of_domain_returns_none (-1) 1 5).1 (by decide) (by decide)⟩

end ConcreteEvaluation
